import Mathlib

/-!
Verification of the riskengine scoring core.

Shallow embedding of the credit-risk scoring engine:
  app/schemas/risk_request.py      (data model)
  app/services/dscr_calculator.py  (DSCR calculator)
  app/scoring/factors.py           (B2C factor functions)
  app/scoring/b2b_factors.py       (B2B factor functions)
  app/scoring/legacy_scorecard.py  (legacy WoE scorecard)
  app/scoring/engine.py            (orchestrator, business rules)

Conventions of the embedding:
  - Python floats are modelled by exact rationals (`ℚ`); `round(x, 2)` is
    `round2` below.
  - Calendar dates are modelled by an integer day number; `(a - b).days`
    is plain integer subtraction.  The wall-clock date `datetime.now().date()`
    is passed explicitly as a `today : ℤ` argument to every function that
    reads the clock in the source.
  - Python `Optional[t]` is `Option t`; `x or 0` is `Option.getD x 0`.
  - Display strings built with `f"{v:.1f}"`-style numeric formatting are
    rendered with `toString`; the exact presentation of numbers inside
    `raw_value` / `triggered_value` strings is abstracted, string constants
    are kept verbatim.
  - `assessment_id` (a fresh UUID), `evaluated_at` and `processing_time_ms`
    (wall-clock readings) are not part of the embedded response.
  - `compute_legacy_score` subtracts `cust.date_of_birth` from the current
    date without a `None` guard; in Python this raises `TypeError` when the
    field is absent.  The embedding makes this the single partial point of
    the pipeline: `compute_legacy_score` and hence `evaluate` return an
    `Option`, with `none` marking the raise.
-/

namespace RiskEngine

/-- Python `round(x, 2)`: rounding a rational to two decimal places. -/
def round2 (q : ℚ) : ℚ := (round (q * 100) : ℤ) / 100

/-- Age in years from a day count, as in `(today - dob).days / 365.25`. -/
def ageYears (days : ℤ) : ℚ := (days : ℚ) / 365.25

-- ═══════════════════════════════════════════════════════════════
-- Data model (app/schemas/risk_request.py)
-- ═══════════════════════════════════════════════════════════════

inductive PartyType where
  | B2B
  | B2C
deriving DecidableEq, Repr, Inhabited

inductive PermitType where
  | B
  | C
  | L
  | Diplomat
  | Unknown
deriving DecidableEq, Repr, Inhabited

inductive ZefixStatus where
  | ACTIVE
  | DISSOLVED
  | SUSPENDED
  | NOT_FOUND
  | UNKNOWN
deriving DecidableEq, Repr, Inhabited

inductive LegalForm where
  | AG
  | GmbH
  | KG
  | Einzelfirma
  | Other
  | Unknown
deriving DecidableEq, Repr, Inhabited

inductive IndustryRisk where
  | Low
  | Medium
  | High
  | Critical
  | Unknown
deriving DecidableEq, Repr, Inhabited

/-- `CustomerData` — fields consumed by the scoring core. -/
structure CustomerData where
  party_type : PartyType
  date_of_birth : Option ℤ
  permit_type : Option PermitType
  monthly_net_income : Option ℚ
  monthly_existing_obligations : Option ℚ
  monthly_rent : Option ℚ
  monthly_insurance : Option ℚ
  monthly_alimony : Option ℚ
  annual_revenue : Option ℚ
  annual_ebitda : Option ℚ
  total_debt_service : Option ℚ
  company_age_years : Option ℤ
  zefix_status : Option ZefixStatus
  legal_form : Option LegalForm
  industry_risk : Option IndustryRisk
  crif_score : Option ℤ
  intrum_score : Option ℤ
  zek_has_entries : Option Bool
  zek_entry_count : Option ℤ
deriving DecidableEq, Repr, Inhabited

/-- `VehicleData` — only `vehicle_price` is consumed by the core. -/
structure VehicleData where
  vehicle_price : ℚ
deriving DecidableEq, Repr, Inhabited

/-- `ContractData` — fields consumed by the scoring core. -/
structure ContractData where
  financed_amount : ℚ
  term_months : ℤ
  monthly_payment : ℚ
deriving DecidableEq, Repr, Inhabited

/-- `DealerData` — fields consumed by the scoring core. -/
structure DealerData where
  dealer_default_rate : Option ℚ
  dealer_active_months : Option ℤ
deriving DecidableEq, Repr, Inhabited

/-- `RiskEvaluationRequest` (top level). -/
structure RiskEvaluationRequest where
  request_id : String
  timestamp : String
  customer : CustomerData
  vehicle : VehicleData
  contract : ContractData
  dealer : DealerData
  model_version : Option String
deriving DecidableEq, Repr, Inhabited

/-- The documented input contract of §3 of the spec (the parts enforced by
the pydantic schema that are relevant to the core): positive amounts,
`term_months` in (0, 84], non-negative optional numerics. -/
def schemaValid (r : RiskEvaluationRequest) : Prop :=
  0 < r.vehicle.vehicle_price ∧
  0 < r.contract.financed_amount ∧
  0 < r.contract.term_months ∧ r.contract.term_months ≤ 84 ∧
  0 < r.contract.monthly_payment

instance (r : RiskEvaluationRequest) : Decidable (schemaValid r) := by
  unfold schemaValid; infer_instance

-- ═══════════════════════════════════════════════════════════════
-- DSCR calculator (app/services/dscr_calculator.py)
-- ═══════════════════════════════════════════════════════════════

def MINIMUM_LIVING_COST_SINGLE : ℚ := 1350
def MINIMUM_LIVING_COST_BUFFER_PCT : ℚ := 0.10

structure DSCROutput where
  dscr_value : Option ℚ
  monthly_disposable_income : Option ℚ
  monthly_payment : ℚ
  calculation_method : String
  is_valid : Bool
deriving DecidableEq, Repr, Inhabited

/-- `_calc_b2c`: B2C DSCR using net income after deductions. -/
def calc_b2c (customer : CustomerData) (monthly_payment : ℚ) : DSCROutput :=
  match customer.monthly_net_income with
  | none =>
      { dscr_value := none, monthly_disposable_income := none
        monthly_payment := monthly_payment
        calculation_method := "FALLBACK", is_valid := false }
  | some net_income =>
      if net_income ≤ 0 then
        { dscr_value := none, monthly_disposable_income := none
          monthly_payment := monthly_payment
          calculation_method := "FALLBACK", is_valid := false }
      else
        let rent := customer.monthly_rent.getD 0
        let insurance := customer.monthly_insurance.getD 0
        let alimony := customer.monthly_alimony.getD 0
        let existing_obligations := customer.monthly_existing_obligations.getD 0
        let min_living := MINIMUM_LIVING_COST_SINGLE * (1 + MINIMUM_LIVING_COST_BUFFER_PCT)
        let total_deductions := rent + insurance + alimony + existing_obligations + min_living
        let disposable := net_income - total_deductions
        if monthly_payment ≤ 0 then
          { dscr_value := none, monthly_disposable_income := some disposable
            monthly_payment := monthly_payment
            calculation_method := "B2C_NET_INCOME", is_valid := false }
        else
          { dscr_value := some (round2 (disposable / monthly_payment))
            monthly_disposable_income := some (round2 disposable)
            monthly_payment := monthly_payment
            calculation_method := "B2C_NET_INCOME", is_valid := true }

/-- `_calc_b2b`: B2B DSCR using EBITDA / total annual debt service.
The source also receives `term_months` but never uses it. -/
def calc_b2b (customer : CustomerData) (monthly_payment : ℚ) (_term_months : ℤ) : DSCROutput :=
  match customer.annual_ebitda with
  | none =>
      { dscr_value := none, monthly_disposable_income := none
        monthly_payment := monthly_payment
        calculation_method := "FALLBACK", is_valid := false }
  | some ebitda =>
      if ebitda ≤ 0 then
        { dscr_value := none, monthly_disposable_income := none
          monthly_payment := monthly_payment
          calculation_method := "FALLBACK", is_valid := false }
      else
        let total_existing_debt_service := customer.total_debt_service.getD 0
        let new_annual_service := monthly_payment * 12
        let total_annual_ds := total_existing_debt_service + new_annual_service
        if total_annual_ds ≤ 0 then
          { dscr_value := none, monthly_disposable_income := none
            monthly_payment := monthly_payment
            calculation_method := "B2B_EBITDA", is_valid := false }
        else
          { dscr_value := some (round2 (ebitda / total_annual_ds))
            monthly_disposable_income := some (round2 (ebitda / 12 - monthly_payment))
            monthly_payment := monthly_payment
            calculation_method := "B2B_EBITDA", is_valid := true }

/-- `calculate_dscr`: dispatch on `customer.party_type`. -/
def calculate_dscr (customer : CustomerData) (contract : ContractData) : DSCROutput :=
  if customer.party_type = PartyType.B2B then
    calc_b2b customer contract.monthly_payment contract.term_months
  else
    calc_b2c customer contract.monthly_payment

-- ═══════════════════════════════════════════════════════════════
-- B2C factor functions (app/scoring/factors.py)
-- ═══════════════════════════════════════════════════════════════

structure FactorResult where
  factor_name : String
  raw_value : String
  bin_label : String
  raw_score : ℚ
deriving DecidableEq, Repr, Inhabited

/-- `score_ltv`. -/
def score_ltv (financed_amount vehicle_price : ℚ) : FactorResult :=
  if vehicle_price ≤ 0 then ⟨"LTV", "N/A", "MISSING", -5⟩
  else
    let ltv := financed_amount / vehicle_price * 100
    if ltv < 75 then ⟨"LTV", toString ltv, "<75%", 8⟩
    else if ltv ≤ 85 then ⟨"LTV", toString ltv, "75-85%", 4⟩
    else if ltv ≤ 95 then ⟨"LTV", toString ltv, "85-95%", 0⟩
    else ⟨"LTV", toString ltv, ">95%", -8⟩

/-- `score_term`. -/
def score_term (term_months : ℤ) : FactorResult :=
  if term_months ≤ 36 then ⟨"Term", toString term_months ++ "m", "≤36m", 5⟩
  else if term_months ≤ 48 then ⟨"Term", toString term_months ++ "m", "37-48m", 6⟩
  else ⟨"Term", toString term_months ++ "m", ">48m", -3⟩

/-- `score_age`; the source defaults `reference_date` to `date.today()`,
here the reference day is always passed explicitly. -/
def score_age (today dob : ℤ) : FactorResult :=
  let age := ageYears (today - dob)
  if age < 18 then ⟨"Age", toString age, "<18 (minor)", -10⟩
  else if age ≤ 25 then ⟨"Age", toString age, "18-25", -6⟩
  else if age ≤ 35 then ⟨"Age", toString age, "26-35", 2⟩
  else if age ≤ 45 then ⟨"Age", toString age, "36-45", 0⟩
  else if age ≤ 55 then ⟨"Age", toString age, "46-55", 7⟩
  else ⟨"Age", toString age, "56+", -2⟩

/-- `score_crif`. -/
def score_crif (crif_score : Option ℤ) : FactorResult :=
  match crif_score with
  | none => ⟨"CRIF", "N/A", "MISSING", -5⟩
  | some s =>
    if s ≥ 700 then ⟨"CRIF", toString s, "≥700 (Excellent)", 8⟩
    else if s ≥ 500 then ⟨"CRIF", toString s, "500-699 (Good)", 4⟩
    else if s ≥ 300 then ⟨"CRIF", toString s, "300-499 (Fair)", -2⟩
    else ⟨"CRIF", toString s, "<300 (Poor)", -8⟩

/-- `score_intrum`; `intrum_score is None or intrum_score == 0` is the
first branch. -/
def score_intrum (intrum_score : Option ℤ) : FactorResult :=
  match intrum_score with
  | none => ⟨"Intrum", "0", "0 (No data)", -4⟩
  | some s =>
    if s = 0 then ⟨"Intrum", "0", "0 (No data)", -4⟩
    else if s = 1 then ⟨"Intrum", toString s, "1", 1⟩
    else if s ≤ 3 then ⟨"Intrum", toString s, "2-3", -1⟩
    else ⟨"Intrum", toString s, ">3 (Established)", 5⟩

/-- `score_dscr` (B2C bins). -/
def score_dscr (dscr_value : Option ℚ) : FactorResult :=
  match dscr_value with
  | none => ⟨"DSCR", "N/A", "MISSING", -5⟩
  | some v =>
    if v < 0 then ⟨"DSCR", toString v, "<0 (Negative)", -8⟩
    else if v ≤ 3 then ⟨"DSCR", toString v, "0-3 (Tight)", -3⟩
    else if v ≤ 7 then ⟨"DSCR", toString v, "3-7 (Adequate)", 0⟩
    else if v ≤ 15 then ⟨"DSCR", toString v, "7-15 (Good)", 3⟩
    else ⟨"DSCR", toString v, ">15 (Strong)", 7⟩

/-- `score_permit`; the source receives `party_type.value` and the upper-cased
permit string, the embedding receives the corresponding enums
(`(permit_type or "Unknown").upper()` gives "UNKNOWN", which falls into the
Other_B2C branch exactly like `PermitType.Unknown`). -/
def score_permit (party_type : PartyType) (permit_type : Option PermitType) : FactorResult :=
  if party_type = PartyType.B2B then ⟨"Permit", "B2B", "B2B", -3⟩
  else
    match permit_type with
    | some PermitType.C => ⟨"Permit", "C_permit", "C_permit", 5⟩
    | some PermitType.B => ⟨"Permit", "B_permit", "B_permit", -3⟩
    | some PermitType.L => ⟨"Permit", "L", "L", -1⟩
    | some PermitType.Diplomat => ⟨"Permit", "DIPLOMAT", "DIPLOMAT", -1⟩
    | some PermitType.Unknown => ⟨"Permit", "Unknown", "Other_B2C", 2⟩
    | none => ⟨"Permit", "Unknown", "Other_B2C", 2⟩

/-- `score_vehicle_price_tier`. -/
def score_vehicle_price_tier (vehicle_price : ℚ) : FactorResult :=
  if vehicle_price ≤ 20000 then ⟨"VehiclePriceTier", toString vehicle_price, "≤20k (Economy)", -2⟩
  else if vehicle_price ≤ 50000 then ⟨"VehiclePriceTier", toString vehicle_price, "20k-50k (Mid)", 3⟩
  else if vehicle_price ≤ 100000 then ⟨"VehiclePriceTier", toString vehicle_price, "50k-100k (Premium)", 2⟩
  else ⟨"VehiclePriceTier", toString vehicle_price, ">100k (Luxury)", -1⟩

/-- `score_zek`; Python `entry_count or 1` maps both `None` and `0` to `1`. -/
def score_zek (has_entries : Option Bool) (entry_count : Option ℤ) : FactorResult :=
  match has_entries with
  | none => ⟨"ZEK", "N/A", "NOT_CHECKED", 0⟩
  | some false => ⟨"ZEK", "Clean", "No negative entries", 5⟩
  | some true =>
    let count : ℤ := match entry_count with
                     | none => 1
                     | some c => if c = 0 then 1 else c
    if count ≤ 1 then ⟨"ZEK", toString count ++ " entry", "1 entry", -3⟩
    else ⟨"ZEK", toString count ++ " entries", "2+ entries", -7⟩

/-- `score_dealer_risk`. -/
def score_dealer_risk (dealer_default_rate : Option ℚ) (dealer_active_months : Option ℤ) : FactorResult :=
  match dealer_default_rate, dealer_active_months with
  | none, _ => ⟨"DealerRisk", "New/Unknown", "NEW_DEALER", -2⟩
  | some _, none => ⟨"DealerRisk", "New/Unknown", "NEW_DEALER", -2⟩
  | some rate, some months =>
    if months < 6 then ⟨"DealerRisk", "New/Unknown", "NEW_DEALER", -2⟩
    else if rate ≤ 0.03 then ⟨"DealerRisk", toString rate, "≤3% (Low)", 4⟩
    else if rate ≤ 0.08 then ⟨"DealerRisk", toString rate, "3-8% (Average)", 0⟩
    else if rate ≤ 0.15 then ⟨"DealerRisk", toString rate, "8-15% (Elevated)", -3⟩
    else ⟨"DealerRisk", toString rate, ">15% (High)", -6⟩

-- ═══════════════════════════════════════════════════════════════
-- B2B factor functions (app/scoring/b2b_factors.py)
-- ═══════════════════════════════════════════════════════════════

/-- `score_company_age`. -/
def score_company_age (company_age_years : Option ℤ) : FactorResult :=
  match company_age_years with
  | none => ⟨"CompanyAge", "N/A", "MISSING", -5⟩
  | some age =>
    if age < 2 then ⟨"CompanyAge", toString age ++ "y", "<2y (Too new)", -10⟩
    else if age < 5 then ⟨"CompanyAge", toString age ++ "y", "2-5y (Startup)", -4⟩
    else if age < 10 then ⟨"CompanyAge", toString age ++ "y", "5-10y (Growing)", 0⟩
    else if age < 20 then ⟨"CompanyAge", toString age ++ "y", "10-20y (Established)", 5⟩
    else ⟨"CompanyAge", toString age ++ "y", ">=20y (Mature)", 8⟩

/-- `score_debt_ratio`. -/
def score_debt_ratio (total_debt_service annual_revenue : Option ℚ) : FactorResult :=
  match annual_revenue, total_debt_service with
  | none, _ => ⟨"DebtRatio", "N/A", "MISSING", -4⟩
  | some _, none => ⟨"DebtRatio", "N/A", "MISSING", -4⟩
  | some rev, some tds =>
    if rev ≤ 0 then ⟨"DebtRatio", "N/A", "MISSING", -4⟩
    else
      let rto := tds / rev
      if rto < 0.20 then ⟨"DebtRatio", toString rto, "<20% (Low leverage)", 5⟩
      else if rto < 0.40 then ⟨"DebtRatio", toString rto, "20-40% (Moderate)", 2⟩
      else if rto < 0.60 then ⟨"DebtRatio", toString rto, "40-60% (High)", -2⟩
      else ⟨"DebtRatio", toString rto, ">60% (Distressed)", -6⟩

/-- `score_b2b_dscr` (B2B bins). -/
def score_b2b_dscr (dscr_value : Option ℚ) : FactorResult :=
  match dscr_value with
  | none => ⟨"DSCR", "N/A", "MISSING", -5⟩
  | some v =>
    if v < 1 then ⟨"DSCR", toString v, "<1.0 (Cannot service)", -8⟩
    else if v < 1.25 then ⟨"DSCR", toString v, "1.0-1.25 (Tight)", -3⟩
    else if v < 1.5 then ⟨"DSCR", toString v, "1.25-1.5 (Adequate)", 0⟩
    else if v < 2 then ⟨"DSCR", toString v, "1.5-2.0 (Good)", 5⟩
    else ⟨"DSCR", toString v, ">=2.0 (Strong)", 7⟩

/-- `score_company_type`; `(zefix_status or "UNKNOWN")` / `(legal_form or
"UNKNOWN")` become `getD` of the corresponding enum. -/
def score_company_type (legal_form : Option LegalForm) (zefix_status : Option ZefixStatus) : FactorResult :=
  let status := zefix_status.getD ZefixStatus.UNKNOWN
  let form := legal_form.getD LegalForm.Unknown
  if status = ZefixStatus.DISSOLVED ∨ status = ZefixStatus.SUSPENDED then
    ⟨"CompanyType", "status", "Dissolved/Suspended", -10⟩
  else if status = ZefixStatus.NOT_FOUND then
    ⟨"CompanyType", "status", "Not in Zefix", -8⟩
  else
    let base : ℚ := match form with
                    | LegalForm.AG => 5
                    | LegalForm.GmbH => 3
                    | LegalForm.KG => 0
                    | LegalForm.Einzelfirma => -2
                    | LegalForm.Other => 0
                    | LegalForm.Unknown => 0
    let score := if status = ZefixStatus.UNKNOWN then max (base - 1) (-3) else base
    ⟨"CompanyType", "form/status", "by legal form", score⟩

/-- `score_industry_risk`; `(industry_risk or "Unknown")` becomes `getD`. -/
def score_industry_risk (industry_risk : Option IndustryRisk) : FactorResult :=
  match industry_risk.getD IndustryRisk.Unknown with
  | IndustryRisk.Low => ⟨"IndustryRisk", "Low", "Low risk industry", 5⟩
  | IndustryRisk.Medium => ⟨"IndustryRisk", "Medium", "Medium risk industry", 0⟩
  | IndustryRisk.High => ⟨"IndustryRisk", "High", "High risk industry", -4⟩
  | IndustryRisk.Critical => ⟨"IndustryRisk", "Critical", "Critical risk industry", -8⟩
  | IndustryRisk.Unknown => ⟨"IndustryRisk", "Unknown", "Industry not classified", -2⟩

-- ═══════════════════════════════════════════════════════════════
-- Legacy WoE scorecard (app/scoring/legacy_scorecard.py)
-- The per-factor `score += δ` blocks of `compute_legacy_score` are split
-- into one delta function per block; the final score is the intercept 389
-- plus the six deltas, exactly as the sequence of additions in the source.
-- ═══════════════════════════════════════════════════════════════

/-- LTV block of `compute_legacy_score` (`ltv = ... if price > 0 else 100`). -/
def legacy_ltv_delta (financed_amount vehicle_price : ℚ) : ℤ :=
  let ltv := if 0 < vehicle_price then financed_amount / vehicle_price * 100 else 100
  if 75 ≤ ltv ∧ ltv ≤ 85 then 15
  else if 85 < ltv ∧ ltv ≤ 95 then 7
  else if ltv < 75 then 36
  else -18

/-- Term block of `compute_legacy_score`. -/
def legacy_term_delta (term_months : ℤ) : ℤ :=
  if 37 ≤ term_months ∧ term_months ≤ 48 then 25
  else if 48 < term_months then -7
  else 22

/-- Age block of `compute_legacy_score`; an age matching none of the
five conditions (below 18, or in one of the gaps (25,26), (35,36),
(45,46), (55,56)) adds nothing. -/
def legacy_age_delta (age : ℚ) : ℤ :=
  if 18 ≤ age ∧ age ≤ 25 then -16
  else if 26 ≤ age ∧ age ≤ 35 then 6
  else if 36 ≤ age ∧ age ≤ 45 then -3
  else if 46 ≤ age ∧ age ≤ 55 then 28
  else if 56 ≤ age then -8
  else 0

/-- Intrum block of `compute_legacy_score`; no branch fires for a negative
score (the schema forbids one), adding nothing, as in the source's
`if/elif` chain without `else`. -/
def legacy_intrum_delta (intrum_score : Option ℤ) : ℤ :=
  match intrum_score with
  | none => -7
  | some i =>
    if i = 0 then -7
    else if i = 1 then 1
    else if 1 < i ∧ i ≤ 3 then -3
    else if 3 < i then 8
    else 0

/-- Permit block of `compute_legacy_score`. -/
def legacy_permit_delta (party_type : PartyType) (permit_type : Option PermitType) : ℤ :=
  if party_type = PartyType.B2B then -6
  else if permit_type = some PermitType.B then -5
  else if permit_type = some PermitType.C then 6
  else 7

/-- DSCR block of `compute_legacy_score` (only applied when
`dscr_value is not None`); the `if/elif` chain covers all rationals, the
trailing 0 is the unreachable fall-through. -/
def legacy_dscr_delta (dscr_value : Option ℚ) : ℤ :=
  match dscr_value with
  | none => 0
  | some v =>
    if 0 ≤ v ∧ v ≤ 3 then -1
    else if 3 < v ∧ v ≤ 7 then 0
    else if 7 < v ∧ v ≤ 15 then -3
    else if v < 0 then -6
    else if 15 < v then 9
    else 0

/-- Band assignment at the end of `compute_legacy_score`. -/
def legacy_band (score : ℤ) : String :=
  if 428 < score then "A"
  else if 401 ≤ score then "B"
  else if 381 ≤ score then "C"
  else if 361 ≤ score then "D"
  else "E"

/-- `compute_legacy_score(request, dscr_output)`, taking the request
components it reads.  The source computes
`age = (datetime.now().date() - cust.date_of_birth).days / 365.25`
without a `None` guard: for `date_of_birth = None` Python raises
`TypeError`, modelled as `none`.  The score is an `int` throughout, so the
final `int(round(score))` is the identity. -/
def compute_legacy_score (today : ℤ) (cust : CustomerData) (vehicle : VehicleData)
    (contract : ContractData) (dscr_output : DSCROutput) : Option (ℤ × String) :=
  match cust.date_of_birth with
  | none => none
  | some dob =>
    let score : ℤ := 389
      + legacy_ltv_delta contract.financed_amount vehicle.vehicle_price
      + legacy_term_delta contract.term_months
      + legacy_age_delta (ageYears (today - dob))
      + legacy_intrum_delta cust.intrum_score
      + legacy_permit_delta cust.party_type cust.permit_type
      + legacy_dscr_delta dscr_output.dscr_value
    some (score, legacy_band score)

-- ═══════════════════════════════════════════════════════════════
-- Business rule overrides (engine.py, _check_business_rules)
-- Each `if cond: overrides.append(...)` block becomes one function
-- returning [] or a singleton; the result is their concatenation in
-- source order.
-- ═══════════════════════════════════════════════════════════════

structure BusinessRuleOverride where
  rule_code : String
  rule_description : String
  triggered_value : String
deriving DecidableEq, Repr, Inhabited

/-- BR-01: B2C minor (guarded by `date_of_birth is not None`). -/
def br01 (today : ℤ) (cust : CustomerData) : List BusinessRuleOverride :=
  match cust.date_of_birth with
  | none => []
  | some dob =>
    if cust.party_type = PartyType.B2C ∧ ageYears (today - dob) < 18 then
      [⟨"BR-01", "Applicant is under 18", "Age: " ++ toString (ageYears (today - dob))⟩]
    else []

/-- BR-02: LTV above 120% (`ltv = ... if price > 0 else 0`). -/
def br02 (vehicle : VehicleData) (contract : ContractData) : List BusinessRuleOverride :=
  let ltv := if 0 < vehicle.vehicle_price
             then contract.financed_amount / vehicle.vehicle_price * 100 else 0
  if 120 < ltv then
    [⟨"BR-02", "LTV exceeds 120% — extreme over-financing", "LTV: " ++ toString ltv⟩]
  else []

/-- BR-03: negative DSCR. -/
def br03 (dscr_output : DSCROutput) : List BusinessRuleOverride :=
  match dscr_output.dscr_value with
  | none => []
  | some v =>
    if v < 0 then
      [⟨"BR-03", "Negative DSCR — expenses exceed income", "DSCR: " ++ toString v⟩]
    else []

/-- BR-04: three or more negative ZEK entries (B2C only);
`cust.zek_has_entries` truthy means `some true`, `(count or 0)` is `getD 0`. -/
def br04 (cust : CustomerData) : List BusinessRuleOverride :=
  if cust.party_type = PartyType.B2C ∧ cust.zek_has_entries = some true ∧
      3 ≤ cust.zek_entry_count.getD 0 then
    [⟨"BR-04", "3+ negative ZEK entries", "ZEK entries: " ++ toString (cust.zek_entry_count.getD 0)⟩]
  else []

/-- BR-05: CRIF critically low. -/
def br05 (cust : CustomerData) : List BusinessRuleOverride :=
  match cust.crif_score with
  | none => []
  | some s =>
    if s < 150 then [⟨"BR-05", "CRIF score critically low (<150)", "CRIF: " ++ toString s⟩]
    else []

/-- BR-06: B2C with invalid DSCR and `monthly_net_income in (None, 0)`. -/
def br06 (cust : CustomerData) (dscr_output : DSCROutput) : List BusinessRuleOverride :=
  if cust.party_type = PartyType.B2C ∧ dscr_output.is_valid = false ∧
      (cust.monthly_net_income = none ∨ cust.monthly_net_income = some 0) then
    [⟨"BR-06", "No income data provided for B2C application", "Net income: None/0"⟩]
  else []

/-- BR-B01: company dissolved or suspended in Zefix. -/
def brB01 (cust : CustomerData) : List BusinessRuleOverride :=
  if cust.zefix_status = some ZefixStatus.DISSOLVED ∨
      cust.zefix_status = some ZefixStatus.SUSPENDED then
    [⟨"BR-B01", "Company is dissolved or suspended in Zefix register", "ZefixStatus"⟩]
  else []

/-- BR-B02: company not found in Zefix. -/
def brB02 (cust : CustomerData) : List BusinessRuleOverride :=
  if cust.zefix_status = some ZefixStatus.NOT_FOUND then
    [⟨"BR-B02", "Company not found in Zefix commercial register", "ZefixStatus: NOT_FOUND"⟩]
  else []

/-- BR-B03: company younger than 2 years. -/
def brB03 (cust : CustomerData) : List BusinessRuleOverride :=
  match cust.company_age_years with
  | none => []
  | some age =>
    if age < 2 then
      [⟨"BR-B03", "Company less than 2 years old — insufficient track record",
        "CompanyAge: " ++ toString age ++ "y"⟩]
    else []

/-- BR-B04: B2B with invalid DSCR and `annual_ebitda is None or <= 0`. -/
def brB04 (cust : CustomerData) (dscr_output : DSCROutput) : List BusinessRuleOverride :=
  match cust.annual_ebitda with
  | none =>
    if dscr_output.is_valid = false then
      [⟨"BR-B04", "No EBITDA data provided for B2B application — cannot assess coverage",
        "annual_ebitda: None/0"⟩]
    else []
  | some e =>
    if dscr_output.is_valid = false ∧ e ≤ 0 then
      [⟨"BR-B04", "No EBITDA data provided for B2B application — cannot assess coverage",
        "annual_ebitda: None/0"⟩]
    else []

/-- BR-07: dealer default rate above the 20% watchlist threshold. -/
def br07 (dealer : DealerData) : List BusinessRuleOverride :=
  match dealer.dealer_default_rate with
  | none => []
  | some rate =>
    if 0.20 < rate then
      [⟨"BR-07", "Dealer default rate exceeds 20% watchlist threshold",
        "Dealer DR: " ++ toString rate⟩]
    else []

/-- BR-08: term above 72 months. -/
def br08 (contract : ContractData) : List BusinessRuleOverride :=
  if 72 < contract.term_months then
    [⟨"BR-08", "Contract term exceeds 72-month maximum",
      "Term: " ++ toString contract.term_months ++ "m"⟩]
  else []

/-- `_check_business_rules(request, dscr_output)`: every rule evaluated
independently, in source order; the B2B-specific block is guarded by
`cust.party_type.value == "B2B"`. -/
def check_business_rules (today : ℤ) (cust : CustomerData) (vehicle : VehicleData)
    (contract : ContractData) (dealer : DealerData) (dscr_output : DSCROutput) :
    List BusinessRuleOverride :=
  br01 today cust ++ br02 vehicle contract ++ br03 dscr_output ++ br04 cust ++
  br05 cust ++ br06 cust dscr_output ++
  (if cust.party_type = PartyType.B2B then
    brB01 cust ++ brB02 cust ++ brB03 cust ++ brB04 cust dscr_output
  else []) ++
  br07 dealer ++ br08 contract

-- ═══════════════════════════════════════════════════════════════
-- Orchestrator (engine.py, evaluate)
-- ═══════════════════════════════════════════════════════════════

inductive RiskTier where
  | BRIGHT_GREEN
  | GREEN
  | YELLOW
  | RED
deriving DecidableEq, Repr, Inhabited

inductive Decision where
  | AUTO_APPROVE
  | APPROVE_STANDARD
  | MANUAL_REVIEW
  | DECLINE
deriving DecidableEq, Repr, Inhabited

/-- `TIER_THRESHOLDS` (v1.2 calibration). -/
def TIER_THRESHOLDS : List (ℚ × RiskTier) :=
  [(25, RiskTier.BRIGHT_GREEN), (10, RiskTier.GREEN), (0, RiskTier.YELLOW)]

/-- `TIER_TO_DECISION`. -/
def TIER_TO_DECISION : RiskTier → Decision
  | RiskTier.BRIGHT_GREEN => Decision.AUTO_APPROVE
  | RiskTier.GREEN => Decision.APPROVE_STANDARD
  | RiskTier.YELLOW => Decision.MANUAL_REVIEW
  | RiskTier.RED => Decision.DECLINE

/-- `FACTOR_WEIGHTS` (B2C); a name outside the table never occurs in an
engine lookup, `0` stands for the impossible `KeyError`. -/
def FACTOR_WEIGHTS : String → ℚ
  | "LTV" => 0.15
  | "Term" => 0.10
  | "Age" => 0.10
  | "CRIF" => 0.15
  | "Intrum" => 0.10
  | "DSCR" => 0.15
  | "Permit" => 0.10
  | "VehiclePriceTier" => 0.05
  | "ZEK" => 0.05
  | "DealerRisk" => 0.05
  | _ => 0

/-- `B2B_FACTOR_WEIGHTS`. -/
def B2B_FACTOR_WEIGHTS : String → ℚ
  | "LTV" => 0.15
  | "Term" => 0.10
  | "CompanyAge" => 0.10
  | "CRIF" => 0.10
  | "DebtRatio" => 0.10
  | "DSCR" => 0.20
  | "CompanyType" => 0.10
  | "VehiclePriceTier" => 0.05
  | "IndustryRisk" => 0.10
  | "DealerRisk" => 0.05
  | _ => 0

/-- Weight table selected by party type (engine.py step 2). -/
def weights_for : PartyType → String → ℚ
  | PartyType.B2B => B2B_FACTOR_WEIGHTS
  | PartyType.B2C => FACTOR_WEIGHTS

/-- The Age entry of `_score_b2c`:
`factors.score_age(dob) if cust.date_of_birth else FactorResult("Age", "N/A", "MISSING", -5.0)`. -/
def b2c_age_factor (today : ℤ) : Option ℤ → FactorResult
  | some dob => score_age today dob
  | none => ⟨"Age", "N/A", "MISSING", -5⟩

/-- `_score_b2c`: the ten B2C factor results, in source order. -/
def score_b2c (today : ℤ) (cust : CustomerData) (vehicle : VehicleData)
    (contract : ContractData) (dealer : DealerData) (dscr_output : DSCROutput) :
    List FactorResult :=
  [ score_ltv contract.financed_amount vehicle.vehicle_price,
    score_term contract.term_months,
    b2c_age_factor today cust.date_of_birth,
    score_crif cust.crif_score,
    score_intrum cust.intrum_score,
    score_dscr dscr_output.dscr_value,
    score_permit cust.party_type cust.permit_type,
    score_vehicle_price_tier vehicle.vehicle_price,
    score_zek cust.zek_has_entries cust.zek_entry_count,
    score_dealer_risk dealer.dealer_default_rate dealer.dealer_active_months ]

/-- `_score_b2b`: the ten B2B factor results, in source order, with
`total_annual_ds = (cust.total_debt_service or 0) + monthly_payment * 12`. -/
def score_b2b (cust : CustomerData) (vehicle : VehicleData)
    (contract : ContractData) (dealer : DealerData) (dscr_output : DSCROutput) :
    List FactorResult :=
  [ score_ltv contract.financed_amount vehicle.vehicle_price,
    score_term contract.term_months,
    score_company_age cust.company_age_years,
    score_crif cust.crif_score,
    score_debt_ratio (some (cust.total_debt_service.getD 0 + contract.monthly_payment * 12))
      cust.annual_revenue,
    score_b2b_dscr dscr_output.dscr_value,
    score_company_type cust.legal_form cust.zefix_status,
    score_vehicle_price_tier vehicle.vehicle_price,
    score_industry_risk cust.industry_risk,
    score_dealer_risk dealer.dealer_default_rate dealer.dealer_active_months ]

/-- Factor list selected by `is_b2b` (evaluate, step 2). -/
def factor_results (today : ℤ) (cust : CustomerData) (vehicle : VehicleData)
    (contract : ContractData) (dealer : DealerData) (dscr_output : DSCROutput) :
    List FactorResult :=
  match cust.party_type with
  | PartyType.B2B => score_b2b cust vehicle contract dealer dscr_output
  | PartyType.B2C => score_b2c today cust vehicle contract dealer dscr_output

/-- One entry of the `factor_scores` list assembled in evaluate's step 3:
`weighted_score` is set to `raw_score` (weights are reported, not applied). -/
structure FactorScore where
  factor_name : String
  raw_value : String
  bin_label : String
  weight : ℚ
  raw_score : ℚ
  weighted_score : ℚ
deriving DecidableEq, Repr, Inhabited

/-- evaluate, step 3: build the `FactorScore` list from the raw results. -/
def mkFactorScores (weights : String → ℚ) (raw : List FactorResult) : List FactorScore :=
  raw.map fun result =>
    { factor_name := result.factor_name
      raw_value := result.raw_value
      bin_label := result.bin_label
      weight := weights result.factor_name
      raw_score := result.raw_score
      weighted_score := result.raw_score }

/-- evaluate, step 3: `total_score = round(sum of raw scores, 2)`. -/
def total_score_of (raw : List FactorResult) : ℚ :=
  round2 ((raw.map FactorResult.raw_score).sum)

/-- evaluate, step 4: the descending threshold scan
(`tier = RED; for threshold, t in TIER_THRESHOLDS: if total >= threshold: tier = t; break`). -/
def scanTier : List (ℚ × RiskTier) → ℚ → RiskTier
  | [], _ => RiskTier.RED
  | (threshold, t) :: rest, s => if s ≥ threshold then t else scanTier rest s

/-- evaluate, steps 4-5: threshold tier, clobbered to RED when any
business rule fired. -/
def final_tier (today : ℤ) (cust : CustomerData) (vehicle : VehicleData)
    (contract : ContractData) (dealer : DealerData) : RiskTier :=
  if check_business_rules today cust vehicle contract dealer
      (calculate_dscr cust contract) = [] then
    scanTier TIER_THRESHOLDS
      (total_score_of (factor_results today cust vehicle contract dealer
        (calculate_dscr cust contract)))
  else RiskTier.RED

/-- `_estimate_pd`: fixed lookup by tier (`pd_map.get` always hits). -/
def estimate_pd (tier : RiskTier) : Option ℚ :=
  some (match tier with
        | RiskTier.BRIGHT_GREEN => 0.015
        | RiskTier.GREEN => 0.035
        | RiskTier.YELLOW => 0.070
        | RiskTier.RED => 0.150)

/-- evaluate, step 6: `(None, None)` for B2B, otherwise the legacy
scorecard (whose dob subtraction can raise, hence the outer `Option`). -/
def legacy_pair (today : ℤ) (cust : CustomerData) (vehicle : VehicleData)
    (contract : ContractData) : Option (Option ℤ × Option String) :=
  match cust.party_type with
  | PartyType.B2B => some (none, none)
  | PartyType.B2C =>
    (compute_legacy_score today cust vehicle contract (calculate_dscr cust contract)).map
      fun p => (some p.1, some p.2)

/-- `RiskEvaluationResponse` — fields computed by the engine
(`assessment_id`, `evaluated_at`, `processing_time_ms` are wall-clock /
fresh-UUID fields outside the embedding). -/
structure RiskEvaluationResponse where
  request_id : String
  model_version : String
  total_score : ℚ
  tier : RiskTier
  decision : Decision
  probability_of_default : Option ℚ
  factor_scores : List FactorScore
  dscr : DSCROutput
  business_rule_overrides : List BusinessRuleOverride
  legacy_score : Option ℤ
  legacy_band : Option String
deriving DecidableEq, Repr, Inhabited

/-- `evaluate(request)`: the single-pass pipeline of engine.py.  Returns
`none` exactly when the Python code raises (B2C request with
`date_of_birth = None`, inside `compute_legacy_score`). -/
def evaluate (today : ℤ) (r : RiskEvaluationRequest) : Option RiskEvaluationResponse :=
  (legacy_pair today r.customer r.vehicle r.contract).map fun lp =>
    { request_id := r.request_id
      model_version := r.model_version.getD "1.2"
      total_score := total_score_of (factor_results today r.customer r.vehicle r.contract
        r.dealer (calculate_dscr r.customer r.contract))
      tier := final_tier today r.customer r.vehicle r.contract r.dealer
      decision := TIER_TO_DECISION (final_tier today r.customer r.vehicle r.contract r.dealer)
      probability_of_default := estimate_pd (final_tier today r.customer r.vehicle r.contract r.dealer)
      factor_scores := mkFactorScores (weights_for r.customer.party_type)
        (factor_results today r.customer r.vehicle r.contract r.dealer
          (calculate_dscr r.customer r.contract))
      dscr := calculate_dscr r.customer r.contract
      business_rule_overrides := check_business_rules today r.customer r.vehicle r.contract
        r.dealer (calculate_dscr r.customer r.contract)
      legacy_score := lp.1
      legacy_band := lp.2 }

-- ═══════════════════════════════════════════════════════════════
-- Supporting lemmas
-- ═══════════════════════════════════════════════════════════════

/-- Characterisation of a successful `evaluate` run: every field of the
returned response equals the corresponding pipeline stage. -/
theorem evaluate_eq_some (today : ℤ) (r : RiskEvaluationRequest)
    (resp : RiskEvaluationResponse) (h : evaluate today r = some resp) :
    resp.total_score = total_score_of (factor_results today r.customer r.vehicle r.contract
      r.dealer (calculate_dscr r.customer r.contract)) ∧
    resp.tier = final_tier today r.customer r.vehicle r.contract r.dealer ∧
    resp.decision = TIER_TO_DECISION (final_tier today r.customer r.vehicle r.contract r.dealer) ∧
    resp.factor_scores = mkFactorScores (weights_for r.customer.party_type)
      (factor_results today r.customer r.vehicle r.contract r.dealer
        (calculate_dscr r.customer r.contract)) ∧
    resp.business_rule_overrides = check_business_rules today r.customer r.vehicle r.contract
      r.dealer (calculate_dscr r.customer r.contract) := by
  unfold evaluate at h
  cases hl : legacy_pair today r.customer r.vehicle r.contract with
  | none => rw [hl] at h; simp at h
  | some lp =>
    rw [hl, Option.map_some'] at h
    injection h with h
    subst h
    exact ⟨rfl, rfl, rfl, rfl, rfl⟩

/-- A fired business rule clobbers the threshold tier to RED. -/
theorem final_tier_fired (today : ℤ) (c : CustomerData) (v : VehicleData)
    (k : ContractData) (dl : DealerData)
    (h : check_business_rules today c v k dl (calculate_dscr c k) ≠ []) :
    final_tier today c v k dl = RiskTier.RED := by
  unfold final_tier; rw [if_neg h]

/-- With no fired business rule, the tier is the threshold-scan tier. -/
theorem final_tier_clean (today : ℤ) (c : CustomerData) (v : VehicleData)
    (k : ContractData) (dl : DealerData)
    (h : check_business_rules today c v k dl (calculate_dscr c k) = []) :
    final_tier today c v k dl =
      scanTier TIER_THRESHOLDS
        (total_score_of (factor_results today c v k dl (calculate_dscr c k))) := by
  unfold final_tier; rw [if_pos h]

/-- The descending scan over `TIER_THRESHOLDS`, written out. -/
theorem scanTier_thresholds (s : ℚ) :
    scanTier TIER_THRESHOLDS s =
      (if 25 ≤ s then RiskTier.BRIGHT_GREEN
       else if 10 ≤ s then RiskTier.GREEN
       else if 0 ≤ s then RiskTier.YELLOW
       else RiskTier.RED) := by
  simp [scanTier, TIER_THRESHOLDS, ge_iff_le]

-- ═══════════════════════════════════════════════════════════════
-- Concrete inputs used by witnesses and counterexamples
-- ═══════════════════════════════════════════════════════════════

/-- A schema-valid B2C customer: adult (day 0 birth), CRIF 700, net income
7000, everything optional absent. -/
def custA : CustomerData :=
  { party_type := PartyType.B2C, date_of_birth := some 0, permit_type := none,
    monthly_net_income := some 7000, monthly_existing_obligations := none,
    monthly_rent := none, monthly_insurance := none, monthly_alimony := none,
    annual_revenue := none, annual_ebitda := none, total_debt_service := none,
    company_age_years := none, zefix_status := none, legal_form := none,
    industry_risk := none, crif_score := some 700, intrum_score := none,
    zek_has_entries := none, zek_entry_count := none }

def vehA : VehicleData := { vehicle_price := 60000 }

def conA : ContractData := { financed_amount := 30000, term_months := 36, monthly_payment := 900 }

def dlrA : DealerData := { dealer_default_rate := none, dealer_active_months := none }

/-- A schema-valid baseline request. -/
def reqA : RiskEvaluationRequest :=
  { request_id := "req-A", timestamp := "2026-01-01T00:00:00Z", customer := custA,
    vehicle := vehA, contract := conA, dealer := dlrA, model_version := none }

/-- Same content as `reqA` under a different idempotency key. -/
def reqA2 : RiskEvaluationRequest := { reqA with request_id := "req-A-copy" }

/-- An 80-month contract: schema-valid (term ≤ 84) but fires BR-08. -/
def conBR08 : ContractData := { financed_amount := 30000, term_months := 80, monthly_payment := 900 }

def reqBR08 : RiskEvaluationRequest := { reqA with contract := conBR08 }

-- ═══════════════════════════════════════════════════════════════
-- C1
-- ═══════════════════════════════════════════════════════════════

/-- C1: for every request, if at least one business rule fires
(`check_business_rules` returns a non-empty list), the response has
`tier = RED` and `decision = DECLINE`, regardless of the composite
`total_score`. -/
theorem fired_rule_forces_red_decline (today : ℤ) (r : RiskEvaluationRequest)
    (resp : RiskEvaluationResponse) (h : evaluate today r = some resp)
    (hfired : check_business_rules today r.customer r.vehicle r.contract r.dealer
      (calculate_dscr r.customer r.contract) ≠ []) :
    resp.tier = RiskTier.RED ∧ resp.decision = Decision.DECLINE := by
  obtain ⟨-, htier, hdec, -, -⟩ := evaluate_eq_some today r resp h
  rw [final_tier_fired _ _ _ _ _ hfired] at htier hdec
  exact ⟨htier, hdec⟩

/-- C1 witness: an 80-month term fires BR-08 and the response is declined. -/
theorem fired_rule_forces_red_decline_witness :
    check_business_rules 15000 reqBR08.customer reqBR08.vehicle reqBR08.contract
      reqBR08.dealer (calculate_dscr reqBR08.customer reqBR08.contract) ≠ [] ∧
    ((evaluate 15000 reqBR08).getD default).tier = RiskTier.RED ∧
    ((evaluate 15000 reqBR08).getD default).decision = Decision.DECLINE := by
  have h := fired_rule_forces_red_decline 15000 reqBR08
    ((evaluate 15000 reqBR08).getD default) (by with_unfolding_all rfl)
    (by with_unfolding_all decide)
  exact ⟨by with_unfolding_all decide, h.1, h.2⟩

-- ═══════════════════════════════════════════════════════════════
-- C2
-- ═══════════════════════════════════════════════════════════════

/-- C2: for every request on which no business rule fires, the tier is
determined solely by `total_score` via the descending threshold scan over
[(25, BRIGHT_GREEN), (10, GREEN), (0, YELLOW)] — first threshold with
`total_score ≥ threshold` wins, otherwise RED — and the decision is the
fixed tier→decision map applied to that tier. -/
theorem clean_tier_threshold_ladder (today : ℤ) (r : RiskEvaluationRequest)
    (resp : RiskEvaluationResponse) (h : evaluate today r = some resp)
    (hclean : check_business_rules today r.customer r.vehicle r.contract r.dealer
      (calculate_dscr r.customer r.contract) = []) :
    resp.tier = (if 25 ≤ resp.total_score then RiskTier.BRIGHT_GREEN
                 else if 10 ≤ resp.total_score then RiskTier.GREEN
                 else if 0 ≤ resp.total_score then RiskTier.YELLOW
                 else RiskTier.RED) ∧
    resp.decision = TIER_TO_DECISION resp.tier := by
  obtain ⟨htot, htier, hdec, -, -⟩ := evaluate_eq_some today r resp h
  rw [final_tier_clean _ _ _ _ _ hclean] at htier hdec
  refine ⟨?_, ?_⟩
  · rw [htier, scanTier_thresholds, htot]
  · rw [hdec, htier]

/-- C2 witness: the baseline request fires no rule, lands at `total_score`
13 and is mapped to GREEN / APPROVE_STANDARD by the ladder. -/
theorem clean_tier_threshold_ladder_witness :
    check_business_rules 8000 reqA.customer reqA.vehicle reqA.contract reqA.dealer
      (calculate_dscr reqA.customer reqA.contract) = [] ∧
    ((evaluate 8000 reqA).getD default).tier =
      (if 25 ≤ ((evaluate 8000 reqA).getD default).total_score then RiskTier.BRIGHT_GREEN
       else if 10 ≤ ((evaluate 8000 reqA).getD default).total_score then RiskTier.GREEN
       else if 0 ≤ ((evaluate 8000 reqA).getD default).total_score then RiskTier.YELLOW
       else RiskTier.RED) ∧
    ((evaluate 8000 reqA).getD default).decision =
      TIER_TO_DECISION (((evaluate 8000 reqA).getD default).tier) := by
  have h := clean_tier_threshold_ladder 8000 reqA
    ((evaluate 8000 reqA).getD default) (by with_unfolding_all rfl)
    (by with_unfolding_all decide)
  exact ⟨by with_unfolding_all decide, h.1, h.2⟩

-- ═══════════════════════════════════════════════════════════════
-- Factor-name lemmas: every branch of a factor function carries the
-- factor's fixed name.
-- ═══════════════════════════════════════════════════════════════

theorem score_ltv_name (f p : ℚ) : (score_ltv f p).factor_name = "LTV" := by
  simp [score_ltv, apply_ite FactorResult.factor_name]

theorem score_term_name (t : ℤ) : (score_term t).factor_name = "Term" := by
  simp [score_term, apply_ite FactorResult.factor_name]

theorem score_age_name (a b : ℤ) : (score_age a b).factor_name = "Age" := by
  simp [score_age, apply_ite FactorResult.factor_name]

theorem b2c_age_factor_name (today : ℤ) (dob : Option ℤ) :
    (b2c_age_factor today dob).factor_name = "Age" := by
  cases dob
  · rfl
  · simp [b2c_age_factor, score_age, apply_ite FactorResult.factor_name]

theorem score_crif_name (c : Option ℤ) : (score_crif c).factor_name = "CRIF" := by
  cases c <;> simp [score_crif, apply_ite FactorResult.factor_name]

theorem score_intrum_name (c : Option ℤ) : (score_intrum c).factor_name = "Intrum" := by
  cases c <;> simp [score_intrum, apply_ite FactorResult.factor_name]

theorem score_dscr_name (v : Option ℚ) : (score_dscr v).factor_name = "DSCR" := by
  cases v <;> simp [score_dscr, apply_ite FactorResult.factor_name]

theorem score_permit_name (pt : PartyType) (p : Option PermitType) :
    (score_permit pt p).factor_name = "Permit" := by
  cases pt <;> rcases p with - | pp <;> try simp [score_permit]
  cases pp <;> simp [score_permit]

theorem score_vehicle_price_tier_name (p : ℚ) :
    (score_vehicle_price_tier p).factor_name = "VehiclePriceTier" := by
  simp [score_vehicle_price_tier, apply_ite FactorResult.factor_name]

theorem score_zek_name (h : Option Bool) (n : Option ℤ) :
    (score_zek h n).factor_name = "ZEK" := by
  rcases h with - | - | - <;> simp [score_zek, apply_ite FactorResult.factor_name]

theorem score_dealer_risk_name (q : Option ℚ) (r : Option ℤ) :
    (score_dealer_risk q r).factor_name = "DealerRisk" := by
  rcases q with - | q <;> rcases r with - | r <;>
    simp [score_dealer_risk, apply_ite FactorResult.factor_name]

theorem score_company_age_name (c : Option ℤ) :
    (score_company_age c).factor_name = "CompanyAge" := by
  cases c <;> simp [score_company_age, apply_ite FactorResult.factor_name]

theorem score_debt_ratio_name (r rev : Option ℚ) :
    ( score_debt_ratio r rev).factor_name = "DebtRatio" := by
  rcases rev with - | rev <;> rcases r with - | r <;>
    simp [score_debt_ratio, apply_ite FactorResult.factor_name]

theorem score_b2b_dscr_name (v : Option ℚ) : (score_b2b_dscr v).factor_name = "DSCR" := by
  cases v <;> simp [score_b2b_dscr, apply_ite FactorResult.factor_name]

theorem score_company_type_name (lf : Option LegalForm) (z : Option ZefixStatus) :
    (score_company_type lf z).factor_name = "CompanyType" := by
  simp only [score_company_type]
  split_ifs <;> rfl

theorem score_industry_risk_name (i : Option IndustryRisk) :
    (score_industry_risk i).factor_name = "IndustryRisk" := by
  rcases i with - | i
  · rfl
  · cases i <;> rfl

-- ═══════════════════════════════════════════════════════════════
-- FactorScore-assembly lemmas
-- ═══════════════════════════════════════════════════════════════

theorem mkFactorScores_raw (w : String → ℚ) (l : List FactorResult) :
    (mkFactorScores w l).map FactorScore.raw_score = l.map FactorResult.raw_score := by
  unfold mkFactorScores; rw [List.map_map]; rfl

theorem mkFactorScores_names (w : String → ℚ) (l : List FactorResult) :
    (mkFactorScores w l).map FactorScore.factor_name = l.map FactorResult.factor_name := by
  unfold mkFactorScores; rw [List.map_map]; rfl

theorem mkFactorScores_weighted (w : String → ℚ) (l : List FactorResult) :
    ∀ fs ∈ mkFactorScores w l, fs.weighted_score = fs.raw_score := by
  intro fs hfs
  unfold mkFactorScores at hfs
  simp only [List.mem_map] at hfs
  obtain ⟨res, -, rfl⟩ := hfs
  rfl

/-- The ten B2C factor names, in the order `_score_b2c` produces them. -/
def B2C_FACTOR_NAMES : List String :=
  ["LTV", "Term", "Age", "CRIF", "Intrum", "DSCR", "Permit", "VehiclePriceTier",
   "ZEK", "DealerRisk"]

/-- The ten B2B factor names, in the order `_score_b2b` produces them. -/
def B2B_FACTOR_NAMES : List String :=
  ["LTV", "Term", "CompanyAge", "CRIF", "DebtRatio", "DSCR", "CompanyType",
   "VehiclePriceTier", "IndustryRisk", "DealerRisk"]

theorem score_b2c_names (today : ℤ) (c : CustomerData) (v : VehicleData)
    (k : ContractData) (dl : DealerData) (d : DSCROutput) :
    (score_b2c today c v k dl d).map FactorResult.factor_name = B2C_FACTOR_NAMES := by
  simp [score_b2c, B2C_FACTOR_NAMES, score_ltv_name, score_term_name, b2c_age_factor_name,
        score_crif_name, score_intrum_name, score_dscr_name, score_permit_name,
        score_vehicle_price_tier_name, score_zek_name, score_dealer_risk_name]

theorem score_b2b_names (c : CustomerData) (v : VehicleData)
    (k : ContractData) (dl : DealerData) (d : DSCROutput) :
    (score_b2b c v k dl d).map FactorResult.factor_name = B2B_FACTOR_NAMES := by
  simp [score_b2b, B2B_FACTOR_NAMES, score_ltv_name, score_term_name, score_company_age_name,
        score_crif_name, score_debt_ratio_name, score_b2b_dscr_name, score_company_type_name,
        score_vehicle_price_tier_name, score_industry_risk_name, score_dealer_risk_name]

/-- The factor-name list of the selected factor set. -/
theorem factor_results_names (today : ℤ) (c : CustomerData) (v : VehicleData)
    (k : ContractData) (dl : DealerData) (d : DSCROutput) :
    (factor_results today c v k dl d).map FactorResult.factor_name =
      (match c.party_type with
       | PartyType.B2B => B2B_FACTOR_NAMES
       | PartyType.B2C => B2C_FACTOR_NAMES) := by
  cases hpt : c.party_type <;>
    simp [factor_results, hpt, score_b2c_names, score_b2b_names]

-- ═══════════════════════════════════════════════════════════════
-- C4
-- ═══════════════════════════════════════════════════════════════

/-- C4: for every request, `total_score` is the unweighted sum of exactly
10 `raw_score` values rounded to 2 decimals, each reported
`weighted_score` equals its `raw_score`, and the factor-name list is
exactly the ten names of the factor set selected by `party_type`. -/
theorem total_score_is_unweighted_sum (today : ℤ) (r : RiskEvaluationRequest)
    (resp : RiskEvaluationResponse) (h : evaluate today r = some resp) :
    resp.factor_scores.length = 10 ∧
    resp.total_score = round2 ((resp.factor_scores.map FactorScore.raw_score).sum) ∧
    (∀ fs ∈ resp.factor_scores, fs.weighted_score = fs.raw_score) ∧
    resp.factor_scores.map FactorScore.factor_name =
      (match r.customer.party_type with
       | PartyType.B2B => B2B_FACTOR_NAMES
       | PartyType.B2C => B2C_FACTOR_NAMES) := by
  obtain ⟨htot, -, -, hfs, -⟩ := evaluate_eq_some today r resp h
  have hnames : resp.factor_scores.map FactorScore.factor_name =
      (match r.customer.party_type with
       | PartyType.B2B => B2B_FACTOR_NAMES
       | PartyType.B2C => B2C_FACTOR_NAMES) := by
    rw [hfs, mkFactorScores_names, factor_results_names]
  refine ⟨?_, ?_, ?_, hnames⟩
  · have hlen := congrArg List.length hnames
    rw [List.length_map] at hlen
    rw [hlen]
    cases r.customer.party_type <;> rfl
  · rw [htot, hfs, mkFactorScores_raw]
    rfl
  · rw [hfs]
    exact mkFactorScores_weighted _ _


/-- C4 witness: the baseline B2C request yields ten factor scores with the
B2C names, an unweighted rounded sum, and `weighted_score = raw_score`. -/
theorem total_score_is_unweighted_sum_witness :
    ((evaluate 8000 reqA).getD default).factor_scores.length = 10 ∧
    ((evaluate 8000 reqA).getD default).total_score =
      round2 (((((evaluate 8000 reqA).getD default).factor_scores).map
        FactorScore.raw_score).sum) ∧
    (∀ fs ∈ ((evaluate 8000 reqA).getD default).factor_scores,
      fs.weighted_score = fs.raw_score) ∧
    (((evaluate 8000 reqA).getD default).factor_scores).map FactorScore.factor_name =
      B2C_FACTOR_NAMES := by
  have h := total_score_is_unweighted_sum 8000 reqA
    ((evaluate 8000 reqA).getD default) (by with_unfolding_all rfl)
  exact ⟨h.1, h.2.1, h.2.2.1, h.2.2.2⟩

-- ═══════════════════════════════════════════════════════════════
-- C3
-- ═══════════════════════════════════════════════════════════════

/-- `reqA`'s customer without a date of birth (schema-valid: the field is
Optional). -/
def custC3 : CustomerData := { custA with date_of_birth := none }

def reqC3 : RiskEvaluationRequest := { reqA with customer := custC3 }

/-- C3 (refuting evidence): a schema-valid B2C request whose customer has
`date_of_birth = None` makes `evaluate` raise a `TypeError` inside
`compute_legacy_score` (the unguarded `today - cust.date_of_birth`),
modelled as `evaluate = none`: the engine returns no response at all,
although `_score_b2c` and `_check_business_rules` both handle the absent
field.  The claim says `evaluate` never raises on such input. -/
theorem evaluate_raises_on_missing_b2c_dob :
    schemaValid reqC3 ∧ reqC3.customer.party_type = PartyType.B2C ∧
    reqC3.customer.date_of_birth = none ∧ evaluate 8000 reqC3 = none := by
  exact ⟨by with_unfolding_all decide, rfl, rfl, rfl⟩

-- ═══════════════════════════════════════════════════════════════
-- C5
-- ═══════════════════════════════════════════════════════════════

/-- C5: for every B2C customer with positive `monthly_net_income` and
positive `monthly_payment`, `calculate_dscr` returns `is_valid = True`,
`calculation_method = B2C_NET_INCOME`, and
`dscr_value = round((net_income − (rent + insurance + alimony +
existing_obligations) − 1485) / monthly_payment, 2)` with missing optional
deductions read as 0 (the value may be negative). -/
theorem dscr_b2c_valid_formula (c : CustomerData) (k : ContractData) (ni : ℚ)
    (hpt : c.party_type = PartyType.B2C) (hni : c.monthly_net_income = some ni)
    (hpos : 0 < ni) (hmp : 0 < k.monthly_payment) :
    (calculate_dscr c k).is_valid = true ∧
    (calculate_dscr c k).calculation_method = "B2C_NET_INCOME" ∧
    (calculate_dscr c k).dscr_value =
      some (round2 ((ni - (c.monthly_rent.getD 0 + c.monthly_insurance.getD 0 +
        c.monthly_alimony.getD 0 + c.monthly_existing_obligations.getD 0) - 1485) /
        k.monthly_payment)) := by
  have hd : calculate_dscr c k = calc_b2c c k.monthly_payment := by
    unfold calculate_dscr
    rw [hpt]
    simp
  rw [hd]
  simp only [calc_b2c, hni, not_le.mpr hpos, if_false, not_le.mpr hmp,
    MINIMUM_LIVING_COST_SINGLE, MINIMUM_LIVING_COST_BUFFER_PCT]
  refine ⟨trivial, trivial, ?_⟩
  congr 2
  ring_nf

/-- Customer for the C5 witness: income 100, all deductions absent. -/
def custC5 : CustomerData := { custA with monthly_net_income := some 100 }

def conC5 : ContractData := { financed_amount := 30000, term_months := 36, monthly_payment := 500 }

/-- C5 witness: net income 100, payment 500 give a valid B2C DSCR of
`round2((100 − 0 − 1485)/500) = −2.77` — negative yet valid. -/
theorem dscr_b2c_valid_formula_witness :
    (0:ℚ) < 100 ∧ (0:ℚ) < 500 ∧
    ((calculate_dscr custC5 conC5).is_valid = true ∧
     (calculate_dscr custC5 conC5).calculation_method = "B2C_NET_INCOME" ∧
     (calculate_dscr custC5 conC5).dscr_value =
       some (round2 ((100 - (custC5.monthly_rent.getD 0 + custC5.monthly_insurance.getD 0 +
         custC5.monthly_alimony.getD 0 + custC5.monthly_existing_obligations.getD 0) - 1485) /
         conC5.monthly_payment))) ∧
    (calculate_dscr custC5 conC5).dscr_value = some (-2.77) := by
  refine ⟨by norm_num, by norm_num, dscr_b2c_valid_formula custC5 conC5 100 rfl rfl
    (by norm_num) (by with_unfolding_all decide), ?_⟩
  with_unfolding_all decide

-- ═══════════════════════════════════════════════════════════════
-- C6
-- ═══════════════════════════════════════════════════════════════

theorem calc_b2c_invalid_none (c : CustomerData) (p : ℚ)
    (h : (calc_b2c c p).is_valid = false) : (calc_b2c c p).dscr_value = none := by
  cases hni : c.monthly_net_income with
  | none => simp [calc_b2c, hni]
  | some ni =>
    simp only [calc_b2c, hni] at h ⊢
    split_ifs at h ⊢ <;> simp_all

theorem calc_b2b_invalid_none (c : CustomerData) (p : ℚ) (t : ℤ)
    (h : (calc_b2b c p t).is_valid = false) : (calc_b2b c p t).dscr_value = none := by
  cases he : c.annual_ebitda with
  | none => simp [calc_b2b, he]
  | some e =>
    simp only [calc_b2b, he] at h ⊢
    split_ifs at h ⊢ <;> simp_all

/-- C6: every `DSCROutput` produced by `calculate_dscr` — on the B2C, B2B
or fallback branch — satisfies the invariant
`is_valid = False → dscr_value = None`. -/
theorem dscr_invalid_implies_none (c : CustomerData) (k : ContractData)
    (h : (calculate_dscr c k).is_valid = false) :
    (calculate_dscr c k).dscr_value = none := by
  unfold calculate_dscr at h ⊢
  split_ifs at h ⊢ with hpt
  · exact calc_b2b_invalid_none c k.monthly_payment k.term_months h
  · exact calc_b2c_invalid_none c k.monthly_payment h

/-- Customer with no income data: B2C fallback branch. -/
def custC6 : CustomerData := { custA with monthly_net_income := none }

/-- C6 witness: the no-income B2C fallback output is invalid and carries
`dscr_value = none`. -/
theorem dscr_invalid_implies_none_witness :
    (calculate_dscr custC6 conA).is_valid = false ∧
    (calculate_dscr custC6 conA).dscr_value = none := by
  exact ⟨rfl, dscr_invalid_implies_none custC6 conA rfl⟩

-- ═══════════════════════════════════════════════════════════════
-- C7: bounds of the legacy scorecard deltas
-- ═══════════════════════════════════════════════════════════════

theorem legacy_ltv_delta_bounds (f p : ℚ) :
    -18 ≤ legacy_ltv_delta f p ∧ legacy_ltv_delta f p ≤ 36 := by
  simp only [legacy_ltv_delta]
  split_ifs <;> omega

theorem legacy_term_delta_bounds (t : ℤ) :
    -7 ≤ legacy_term_delta t ∧ legacy_term_delta t ≤ 25 := by
  unfold legacy_term_delta
  split_ifs <;> omega

theorem legacy_age_delta_bounds (a : ℚ) :
    -16 ≤ legacy_age_delta a ∧ legacy_age_delta a ≤ 28 := by
  unfold legacy_age_delta
  split_ifs <;> omega

theorem legacy_intrum_delta_bounds (i : Option ℤ) :
    -7 ≤ legacy_intrum_delta i ∧ legacy_intrum_delta i ≤ 8 := by
  cases i with
  | none => exact ⟨by decide, by decide⟩
  | some i =>
    simp only [legacy_intrum_delta]
    split_ifs <;> omega

theorem legacy_permit_delta_b2c_bounds (p : Option PermitType) :
    -5 ≤ legacy_permit_delta PartyType.B2C p ∧ legacy_permit_delta PartyType.B2C p ≤ 7 := by
  unfold legacy_permit_delta
  rw [if_neg (by decide)]
  split_ifs <;> omega

theorem legacy_dscr_delta_bounds (v : Option ℚ) :
    -6 ≤ legacy_dscr_delta v ∧ legacy_dscr_delta v ≤ 9 := by
  cases v with
  | none => exact ⟨by decide, by decide⟩
  | some v =>
    simp only [legacy_dscr_delta]
    split_ifs <;> omega

/-- C7 amended: for every B2C request on which the legacy scorecard
computes a result, `330 ≤ legacy_score ≤ 502` (the true minimum of the
intercept plus the six per-factor deltas is 389 − 18 − 7 − 16 − 7 − 5 − 6
= 330, not 333). -/
theorem legacy_score_range_b2c (today : ℤ) (c : CustomerData) (v : VehicleData)
    (k : ContractData) (d : DSCROutput) (s : ℤ) (b : String)
    (hpt : c.party_type = PartyType.B2C)
    (h : compute_legacy_score today c v k d = some (s, b)) :
    330 ≤ s ∧ s ≤ 502 := by
  cases hdob : c.date_of_birth with
  | none => simp [compute_legacy_score, hdob] at h
  | some dob =>
    simp only [compute_legacy_score, hdob] at h
    injection h with h
    rw [Prod.mk.injEq] at h
    obtain ⟨h, -⟩ := h
    rw [hpt] at h
    have b1 := legacy_ltv_delta_bounds k.financed_amount v.vehicle_price
    have b2 := legacy_term_delta_bounds k.term_months
    have b3 := legacy_age_delta_bounds (ageYears (today - dob))
    have b4 := legacy_intrum_delta_bounds c.intrum_score
    have b5 := legacy_permit_delta_b2c_bounds c.permit_type
    have b6 := legacy_dscr_delta_bounds d.dscr_value
    constructor <;> linarith [h, b1.1, b1.2, b2.1, b2.2, b3.1, b3.2, b4.1, b4.2,
      b5.1, b5.2, b6.1, b6.2]

/-- Customer of the minimal legacy score: age 20, permit B, net income 100
(negative DSCR), no Intrum data. -/
def custC7 : CustomerData :=
  { custA with permit_type := some PermitType.B, monthly_net_income := some 100 }

def vehC7 : VehicleData := { vehicle_price := 50000 }

def conC7 : ContractData := { financed_amount := 60000, term_months := 60, monthly_payment := 500 }

def reqC7 : RiskEvaluationRequest :=
  { reqA with customer := custC7, vehicle := vehC7, contract := conC7 }

/-- C7 counterexample: a schema-valid B2C request (LTV 120%, term 60,
age 20, no Intrum data, permit B, DSCR −2.77) reaches legacy score 330,
below the claimed lower bound 333. -/
theorem legacy_score_below_333 :
    schemaValid reqC7 ∧ custC7.party_type = PartyType.B2C ∧
    compute_legacy_score 7305 custC7 vehC7 conC7 (calculate_dscr custC7 conC7) =
      some (330, "E") ∧
    ¬ (333 ≤ (330 : ℤ)) := by
  exact ⟨by with_unfolding_all decide, rfl, by with_unfolding_all decide, by decide⟩

/-- C7 witness: the amended bounds applied to the minimal-score request. -/
theorem legacy_score_range_b2c_witness :
    custC7.party_type = PartyType.B2C ∧
    330 ≤ ((compute_legacy_score 7305 custC7 vehC7 conC7
      (calculate_dscr custC7 conC7)).getD (0, "")).1 ∧
    ((compute_legacy_score 7305 custC7 vehC7 conC7
      (calculate_dscr custC7 conC7)).getD (0, "")).1 ≤ 502 := by
  have h := legacy_score_range_b2c 7305 custC7 vehC7 conC7 (calculate_dscr custC7 conC7)
    ((compute_legacy_score 7305 custC7 vehC7 conC7 (calculate_dscr custC7 conC7)).getD (0, "")).1
    ((compute_legacy_score 7305 custC7 vehC7 conC7 (calculate_dscr custC7 conC7)).getD (0, "")).2
    rfl (by with_unfolding_all rfl)
  exact ⟨rfl, h.1, h.2⟩

-- ═══════════════════════════════════════════════════════════════
-- C8: age branches of the legacy scorecard
-- ═══════════════════════════════════════════════════════════════

theorem legacy_age_delta_1825 (age : ℚ) (h1 : 18 ≤ age) (h2 : age ≤ 25) :
    legacy_age_delta age = -16 := by
  unfold legacy_age_delta
  rw [if_pos ⟨h1, h2⟩]

theorem legacy_age_delta_2635 (age : ℚ) (h1 : 26 ≤ age) (h2 : age ≤ 35) :
    legacy_age_delta age = 6 := by
  unfold legacy_age_delta
  rw [if_neg (by rintro ⟨-, hb⟩; linarith), if_pos ⟨h1, h2⟩]

theorem legacy_age_delta_3645 (age : ℚ) (h1 : 36 ≤ age) (h2 : age ≤ 45) :
    legacy_age_delta age = -3 := by
  unfold legacy_age_delta
  rw [if_neg (by rintro ⟨-, hb⟩; linarith), if_neg (by rintro ⟨-, hb⟩; linarith),
    if_pos ⟨h1, h2⟩]

theorem legacy_age_delta_4655 (age : ℚ) (h1 : 46 ≤ age) (h2 : age ≤ 55) :
    legacy_age_delta age = 28 := by
  unfold legacy_age_delta
  rw [if_neg (by rintro ⟨-, hb⟩; linarith), if_neg (by rintro ⟨-, hb⟩; linarith),
    if_neg (by rintro ⟨-, hb⟩; linarith), if_pos ⟨h1, h2⟩]

theorem legacy_age_delta_56plus (age : ℚ) (h1 : 56 ≤ age) :
    legacy_age_delta age = -8 := by
  unfold legacy_age_delta
  rw [if_neg (by rintro ⟨-, hb⟩; linarith), if_neg (by rintro ⟨-, hb⟩; linarith),
    if_neg (by rintro ⟨-, hb⟩; linarith), if_neg (by rintro ⟨-, hb⟩; linarith),
    if_pos h1]

theorem legacy_age_delta_zero (age : ℚ)
    (h : age < 18 ∨ 25 < age ∧ age < 26 ∨ 35 < age ∧ age < 36 ∨
      45 < age ∧ age < 46 ∨ 55 < age ∧ age < 56) :
    legacy_age_delta age = 0 := by
  unfold legacy_age_delta
  split_ifs with h1 h2 h3 h4 h5
  · exfalso; obtain ⟨u1, u2⟩ := h1
    rcases h with h | ⟨ha, hb⟩ | ⟨ha, hb⟩ | ⟨ha, hb⟩ | ⟨ha, hb⟩ <;> linarith
  · exfalso; obtain ⟨u1, u2⟩ := h2
    rcases h with h | ⟨ha, hb⟩ | ⟨ha, hb⟩ | ⟨ha, hb⟩ | ⟨ha, hb⟩ <;> linarith
  · exfalso; obtain ⟨u1, u2⟩ := h3
    rcases h with h | ⟨ha, hb⟩ | ⟨ha, hb⟩ | ⟨ha, hb⟩ | ⟨ha, hb⟩ <;> linarith
  · exfalso; obtain ⟨u1, u2⟩ := h4
    rcases h with h | ⟨ha, hb⟩ | ⟨ha, hb⟩ | ⟨ha, hb⟩ | ⟨ha, hb⟩ <;> linarith
  · exfalso
    rcases h with h | ⟨ha, hb⟩ | ⟨ha, hb⟩ | ⟨ha, hb⟩ | ⟨ha, hb⟩ <;> linarith
  · rfl

/-- C8 amended: the legacy age block, with
`age = (today − dob).days / 365.25`, awards −16 on [18,25], +6 on
[26,35], −3 on [36,45], +28 on [46,55], −8 on [56,∞); for an age below 18
or in one of the fractional gaps (25,26), (35,36), (45,46), (55,56) no
delta is applied (the claim's "only applicants with age < 18 receive no
age delta" misses the four gaps). -/
theorem legacy_age_delta_characterisation (today dob : ℤ) :
    (18 ≤ ageYears (today - dob) ∧ ageYears (today - dob) ≤ 25 →
      legacy_age_delta (ageYears (today - dob)) = -16) ∧
    (26 ≤ ageYears (today - dob) ∧ ageYears (today - dob) ≤ 35 →
      legacy_age_delta (ageYears (today - dob)) = 6) ∧
    (36 ≤ ageYears (today - dob) ∧ ageYears (today - dob) ≤ 45 →
      legacy_age_delta (ageYears (today - dob)) = -3) ∧
    (46 ≤ ageYears (today - dob) ∧ ageYears (today - dob) ≤ 55 →
      legacy_age_delta (ageYears (today - dob)) = 28) ∧
    (56 ≤ ageYears (today - dob) → legacy_age_delta (ageYears (today - dob)) = -8) ∧
    (ageYears (today - dob) < 18 ∨
      25 < ageYears (today - dob) ∧ ageYears (today - dob) < 26 ∨
      35 < ageYears (today - dob) ∧ ageYears (today - dob) < 36 ∨
      45 < ageYears (today - dob) ∧ ageYears (today - dob) < 46 ∨
      55 < ageYears (today - dob) ∧ ageYears (today - dob) < 56 →
      legacy_age_delta (ageYears (today - dob)) = 0) :=
  ⟨fun h => legacy_age_delta_1825 _ h.1 h.2,
   fun h => legacy_age_delta_2635 _ h.1 h.2,
   fun h => legacy_age_delta_3645 _ h.1 h.2,
   fun h => legacy_age_delta_4655 _ h.1 h.2,
   fun h => legacy_age_delta_56plus _ h,
   fun h => legacy_age_delta_zero _ h⟩

/-- C8 counterexample: at 9350 days (age 37400/1461 ≈ 25.6 ≥ 18) the
legacy age block awards no delta at all, although the claim says every
applicant of age ≥ 18 receives one of −16/+6/−3/+28/−8. -/
theorem legacy_age_gap :
    18 ≤ ageYears 9350 ∧ legacy_age_delta (ageYears 9350) = 0 ∧
    (0 : ℤ) ∉ ([-16, 6, -3, 28, -8] : List ℤ) := by
  exact ⟨by with_unfolding_all decide, by with_unfolding_all decide, by decide⟩

/-- C8 witness: the amended characterisation applied at 10958 days
(age ≈ 30, in [26,35]). -/
theorem legacy_age_delta_characterisation_witness :
    legacy_age_delta (ageYears (10958 - 0)) = 6 :=
  (legacy_age_delta_characterisation 10958 0).2.1
    ⟨by with_unfolding_all decide, by with_unfolding_all decide⟩

-- ═══════════════════════════════════════════════════════════════
-- C9
-- ═══════════════════════════════════════════════════════════════

/-- C9 amended: with the wall-clock date fixed, the non-clock outputs of
`evaluate` (`total_score`, `tier`, `decision`, `factor_scores`,
`business_rule_overrides`) depend only on the request content
(customer / vehicle / contract / dealer) — two requests that differ only
in `request_id`, `timestamp` or `model_version` evaluate identically.
Across different dates the claim fails, because `score_age`, BR-01 and the
legacy age block read the current date (see the counterexample). -/
theorem evaluate_content_deterministic (today : ℤ) (r1 r2 : RiskEvaluationRequest)
    (hc : r1.customer = r2.customer) (hv : r1.vehicle = r2.vehicle)
    (hk : r1.contract = r2.contract) (hd : r1.dealer = r2.dealer) :
    (evaluate today r1).map (fun resp => (resp.total_score, resp.tier, resp.decision,
      resp.factor_scores, resp.business_rule_overrides)) =
    (evaluate today r2).map (fun resp => (resp.total_score, resp.tier, resp.decision,
      resp.factor_scores, resp.business_rule_overrides)) := by
  unfold evaluate
  rw [hc, hv, hk, hd, Option.map_map, Option.map_map]
  rfl

/-- C9 counterexample: the identical request evaluated on two different
wall-clock dates (day 6000: applicant under 18, BR-01 fires; day 8000:
applicant 21.9 years old) yields different tiers, RED versus GREEN — so
reinvocation does not leave the tier unchanged even though only the clock
moved. -/
theorem evaluate_clock_dependence :
    (evaluate 6000 reqA).map (fun resp => resp.tier) = some RiskTier.RED ∧
    (evaluate 8000 reqA).map (fun resp => resp.tier) = some RiskTier.GREEN ∧
    (evaluate 6000 reqA).map (fun resp => resp.tier) ≠
      (evaluate 8000 reqA).map (fun resp => resp.tier) := by
  exact ⟨by with_unfolding_all decide, by with_unfolding_all decide,
    by with_unfolding_all decide⟩

/-- C9 witness: `reqA` and `reqA2` share content and differ only in
`request_id`; same-day evaluation gives identical non-clock outputs. -/
theorem evaluate_content_deterministic_witness :
    (evaluate 8000 reqA).map (fun resp => (resp.total_score, resp.tier, resp.decision,
      resp.factor_scores, resp.business_rule_overrides)) =
    (evaluate 8000 reqA2).map (fun resp => (resp.total_score, resp.tier, resp.decision,
      resp.factor_scores, resp.business_rule_overrides)) :=
  evaluate_content_deterministic 8000 reqA reqA2 rfl rfl rfl rfl

-- ═══════════════════════════════════════════════════════════════
-- C10: rule-code lemmas and the missing-dob sentinel
-- ═══════════════════════════════════════════════════════════════

theorem br01_of_no_dob (today : ℤ) (c : CustomerData) (h : c.date_of_birth = none) :
    br01 today c = [] := by
  simp [br01, h]

theorem br02_code (v : VehicleData) (k : ContractData) (o : BusinessRuleOverride)
    (h : o ∈ br02 v k) : o.rule_code = "BR-02" := by
  unfold br02 at h
  split at h <;> simp_all

theorem br03_code (d : DSCROutput) (o : BusinessRuleOverride)
    (h : o ∈ br03 d) : o.rule_code = "BR-03" := by
  unfold br03 at h
  split at h
  · cases h
  · split at h <;> simp_all

theorem br04_code (c : CustomerData) (o : BusinessRuleOverride)
    (h : o ∈ br04 c) : o.rule_code = "BR-04" := by
  unfold br04 at h
  split at h <;> simp_all

theorem br05_code (c : CustomerData) (o : BusinessRuleOverride)
    (h : o ∈ br05 c) : o.rule_code = "BR-05" := by
  unfold br05 at h
  split at h
  · cases h
  · split at h <;> simp_all

theorem br06_code (c : CustomerData) (d : DSCROutput) (o : BusinessRuleOverride)
    (h : o ∈ br06 c d) : o.rule_code = "BR-06" := by
  unfold br06 at h
  split at h <;> simp_all

theorem brB01_code (c : CustomerData) (o : BusinessRuleOverride)
    (h : o ∈ brB01 c) : o.rule_code = "BR-B01" := by
  unfold brB01 at h
  split at h <;> simp_all

theorem brB02_code (c : CustomerData) (o : BusinessRuleOverride)
    (h : o ∈ brB02 c) : o.rule_code = "BR-B02" := by
  unfold brB02 at h
  split at h <;> simp_all

theorem brB03_code (c : CustomerData) (o : BusinessRuleOverride)
    (h : o ∈ brB03 c) : o.rule_code = "BR-B03" := by
  unfold brB03 at h
  split at h
  · cases h
  · split at h <;> simp_all

theorem brB04_code (c : CustomerData) (d : DSCROutput) (o : BusinessRuleOverride)
    (h : o ∈ brB04 c d) : o.rule_code = "BR-B04" := by
  unfold brB04 at h
  split at h <;> split at h <;> simp_all

theorem br07_code (dl : DealerData) (o : BusinessRuleOverride)
    (h : o ∈ br07 dl) : o.rule_code = "BR-07" := by
  unfold br07 at h
  split at h
  · cases h
  · split at h <;> simp_all

theorem br08_code (k : ContractData) (o : BusinessRuleOverride)
    (h : o ∈ br08 k) : o.rule_code = "BR-08" := by
  unfold br08 at h
  split at h <;> simp_all

/-- C10: for every B2C customer with `date_of_birth = None`, the third
factor of the B2C factor list is the sentinel
`FactorResult("Age", "N/A", "MISSING", -5.0)`, and BR-01 is not among the
fired business rules.  (For this input the full `evaluate` raises inside
the legacy scorecard — see the C3 development — so the property is stated
of the factor list and override list the engine computes.) -/
theorem missing_dob_age_sentinel_no_br01 (today : ℤ) (c : CustomerData)
    (v : VehicleData) (k : ContractData) (dl : DealerData)
    (hpt : c.party_type = PartyType.B2C) (hdob : c.date_of_birth = none) :
    (factor_results today c v k dl (calculate_dscr c k))[2]? =
      some ⟨"Age", "N/A", "MISSING", -5⟩ ∧
    ∀ o ∈ check_business_rules today c v k dl (calculate_dscr c k),
      o.rule_code ≠ "BR-01" := by
  constructor
  · simp [factor_results, hpt, score_b2c, b2c_age_factor, hdob]
  · intro o ho
    unfold check_business_rules at ho
    rw [br01_of_no_dob today c hdob, List.nil_append] at ho
    simp only [List.mem_append] at ho
    rcases ho with ((((((h2 | h3) | h4) | h5) | h6) | hB) | h7) | h8
    · rw [br02_code v k o h2]; decide
    · rw [br03_code _ o h3]; decide
    · rw [br04_code c o h4]; decide
    · rw [br05_code c o h5]; decide
    · rw [br06_code c _ o h6]; decide
    · rw [hpt] at hB
      simp at hB
    · rw [br07_code dl o h7]; decide
    · rw [br08_code k o h8]; decide

def reqC10 : RiskEvaluationRequest := { reqA with customer := custC3, contract := conBR08 }

/-- C10 witness: `custC3` (B2C, no date of birth) with an 80-month term:
the Age slot holds the sentinel, BR-08 fires, and the fired override is
not BR-01. -/
theorem missing_dob_age_sentinel_no_br01_witness :
    custC3.party_type = PartyType.B2C ∧ custC3.date_of_birth = none ∧
    (factor_results 8000 custC3 vehA conBR08 dlrA (calculate_dscr custC3 conBR08))[2]? =
      some ⟨"Age", "N/A", "MISSING", -5⟩ ∧
    (⟨"BR-08", "Contract term exceeds 72-month maximum", "Term: 80m"⟩ :
        BusinessRuleOverride) ∈
      check_business_rules 8000 custC3 vehA conBR08 dlrA (calculate_dscr custC3 conBR08) ∧
    (⟨"BR-08", "Contract term exceeds 72-month maximum", "Term: 80m"⟩ :
        BusinessRuleOverride).rule_code ≠ "BR-01" := by
  have hmem : (⟨"BR-08", "Contract term exceeds 72-month maximum", "Term: 80m"⟩ :
        BusinessRuleOverride) ∈
      check_business_rules 8000 custC3 vehA conBR08 dlrA (calculate_dscr custC3 conBR08) := by
    with_unfolding_all decide
  have h := missing_dob_age_sentinel_no_br01 8000 custC3 vehA conBR08 dlrA rfl rfl
  exact ⟨rfl, rfl, h.1, hmem, h.2 _ hmem⟩

end RiskEngine
